import Mathlib

/-!
# Verification of `route_manager.py` (aws_robomaker_simulation_common)

Shallow embedding of the goal-sampling and route-dispatch logic of
`src/simulation_ws/src/aws_robomaker_simulation_common/nodes/route_manager.py`,
together with theorems settling the specification claims about it.

The occupancy-grid logic (`ravel_index`, `check_noise`, the candidate-draw
loop of `get_next`) is embedded as computable functions on `Nat`/`Int`.
World coordinates (Python floats) are embedded as real numbers, so the
coordinate transform `grid_to_world_2d` and the quaternion construction of
`_create_pos` are exact real-valued functions.

Interactions with ROS (random draws, message waits, shutdown flag, action
results) are supplied by explicit environment inputs: one random draw pair
per loop iteration of `get_next`, and one `IterEnv` record per iteration of
`route_forever`.
-/

namespace RouteManagerPy

/-- The static map snapshot held by `GoalGenerator.__init__`:
`meta_data.width`, `meta_data.height`, `meta_data.resolution`, the origin
translation `map_origin_x0`/`map_origin_y0`, the derived `map_yaw`, and the
flat occupancy array `occupancy_data.data` (row-major, values are the
trinary occupancy domain embedded into `ℤ`). -/
structure Grid where
  width : ℕ
  height : ℕ
  resolution : ℝ
  map_origin_x0 : ℝ
  map_origin_y0 : ℝ
  map_yaw : ℝ
  data : List ℤ

/-- `GoalGenerator.ravel_index`: row-major linearization
`y * self.meta_data.width + x`. -/
def Grid.ravel_index (g : Grid) (x y : ℤ) : ℤ :=
  y * (g.width : ℤ) + x

/-- Python's `range(l, r)` over integers: the list `l, l+1, ..., r-1`
(empty when `r ≤ l`). -/
def int_range (l r : ℤ) : List ℤ :=
  (List.range (r - l).toNat).map (fun (k : ℕ) => l + (k : ℤ))

/-- Reading `self.occupancy_data.data[i]` for an in-bounds index `i`
(out-of-bounds reads never happen on the paths we verify; the default
value 0 is immaterial there). -/
def Grid.dataAt (g : Grid) (i : ℤ) : ℤ :=
  g.data.getD i.toNat 0

/-- `GoalGenerator.check_noise`: window half-extents
`delta_x = max(2, width // 50)`, `delta_y = max(2, height // 50)`;
bounds `l_bound = max(0, x - delta_x)`, `r_bound = min(width - 1, x + delta_x)`
(and likewise `t_bound`/`b_bound` for `y`); then the nested loops
`for _x in range(l_bound, r_bound): for _y in range(t_bound, b_bound): ...`
return `False` as soon as a cell with non-zero occupancy is seen, else
`True`.  (`List.all` models the early-exit loop.) -/
def Grid.check_noise (g : Grid) (x y : ℤ) : Bool :=
  let delta_x : ℤ := max 2 ((g.width : ℤ) / 50)
  let delta_y : ℤ := max 2 ((g.height : ℤ) / 50)
  let l_bound : ℤ := max 0 (x - delta_x)
  let r_bound : ℤ := min ((g.width : ℤ) - 1) (x + delta_x)
  let t_bound : ℤ := max 0 (y - delta_y)
  let b_bound : ℤ := min ((g.height : ℤ) - 1) (y + delta_y)
  (int_range l_bound r_bound).all fun i =>
    (int_range t_bound b_bound).all fun j =>
      g.dataAt (g.ravel_index i j) == 0

/-- The list of flat indices `ravel_index(_x, _y)` read from the occupancy
array by one call `check_noise(x, y)`, in loop order. -/
def Grid.noise_indices (g : Grid) (x y : ℤ) : List ℤ :=
  let delta_x : ℤ := max 2 ((g.width : ℤ) / 50)
  let delta_y : ℤ := max 2 ((g.height : ℤ) / 50)
  let l_bound : ℤ := max 0 (x - delta_x)
  let r_bound : ℤ := min ((g.width : ℤ) - 1) (x + delta_x)
  let t_bound : ℤ := max 0 (y - delta_y)
  let b_bound : ℤ := min ((g.height : ℤ) - 1) (y + delta_y)
  (int_range l_bound r_bound).flatMap fun i =>
    (int_range t_bound b_bound).map fun j => g.ravel_index i j

theorem mem_int_range {l r i : ℤ} : i ∈ int_range l r ↔ l ≤ i ∧ i < r := by
  unfold int_range
  simp only [List.mem_map, List.mem_range]
  constructor
  · rintro ⟨k, hk, rfl⟩
    omega
  · rintro ⟨h1, h2⟩
    exact ⟨(i - l).toNat, by omega, by omega⟩

theorem check_noise_eq_all_noise_indices (g : Grid) (x y : ℤ) :
    g.check_noise x y = (g.noise_indices x y).all fun i => g.dataAt i == 0 := by
  unfold Grid.check_noise Grid.noise_indices
  simp [List.all_flatMap, List.all_map, Function.comp_def]

/-- `GoalGenerator.grid_to_world_2d`:
`x_world = map_origin_x0 + (cos(map_yaw) * (resolution * x) - sin(map_yaw) * (resolution * y))`,
`y_world = map_origin_y0 + (sin(map_yaw) * (resolution * x) + cos(map_yaw) * (resolution * y))`. -/
noncomputable def Grid.grid_to_world_2d (g : Grid) (x y : ℤ) : ℝ × ℝ :=
  (g.map_origin_x0 +
     (Real.cos g.map_yaw * (g.resolution * (x : ℝ))
       - Real.sin g.map_yaw * (g.resolution * (y : ℝ))),
   g.map_origin_y0 +
     (Real.sin g.map_yaw * (g.resolution * (x : ℝ))
       + Real.cos g.map_yaw * (g.resolution * (y : ℝ))))

/-- `tf.transformations.quaternion_from_euler(ai, aj, ak)` with the default
axes `'sxyz'` (`firstaxis = 0`, `parity = 0`, `repetition = 0`, `frame = 0`,
so `i = 0`, `j = 1`, `k = 2`): halve the angles, take their sines/cosines,
and return `[x, y, z, w]` by the non-repetition branch. -/
noncomputable def quaternion_from_euler (ai aj ak : ℝ) : ℝ × ℝ × ℝ × ℝ :=
  let ai := ai / 2
  let aj := aj / 2
  let ak := ak / 2
  let ci := Real.cos ai
  let si := Real.sin ai
  let cj := Real.cos aj
  let sj := Real.sin aj
  let ck := Real.cos ak
  let sk := Real.sin ak
  let cc := ci * ck
  let cs := ci * sk
  let sc := si * ck
  let ss := si * sk
  (cj * sc - sj * cs, cj * ss + sj * cc, cj * cs - sj * sc, cj * cc + sj * ss)

/-- The pose dictionary built by `GoalGenerator._create_pos`
(`{'pose': {'position': ..., 'orientation': ...}}`), flattened to a record:
world position plus quaternion orientation. -/
structure Pose where
  px : ℝ
  py : ℝ
  pz : ℝ
  ox : ℝ
  oy : ℝ
  oz : ℝ
  ow : ℝ

/-- `GoalGenerator._create_pos`: wraps the world position and the quaternion
obtained from the euler orientation into a pose. -/
noncomputable def _create_pos (x_world y_world z_world : ℝ)
    (euler_orientation_x euler_orientation_y euler_orientation_z : ℝ) : Pose :=
  let q := quaternion_from_euler
    euler_orientation_x euler_orientation_y euler_orientation_z
  { px := x_world, py := y_world, pz := z_world,
    ox := q.1, oy := q.2.1, oz := q.2.2.1, ow := q.2.2.2 }

/-- The candidate-draw loop of `GoalGenerator.get_next`, with the random
draws `(_x, _y) = (randint(0, width-1), randint(0, height-1))` of iteration
number `k` supplied by `draws k`, and bounded by `fuel` loop iterations.

State carried between iterations: the draw counter `k` and the variable
`iteration` — which the Python loop initialises to `0`, tests against
`timeout_iter = 100`, and **never increments** (the source has no
`iteration += 1`).  The recursive call therefore passes `iteration`
unchanged, exactly as the source does.

Result: `some (some (_x, _y))` when a draw is accepted
(`occupancy_data.data[_row_id] == 0 and check_noise(_x, _y)`),
`some none` when the loop exits and the function returns `None`
(unreachable while `iteration < 100` keeps holding), and `none` when
`fuel` iterations have elapsed without the call returning. -/
def select_cell (g : Grid) (draws : ℕ → ℕ × ℕ) :
    ℕ → ℕ → ℕ → Option (Option (ℕ × ℕ))
  | 0, _, _ => none
  | fuel + 1, k, iteration =>
    if iteration < 100 then
      let d := draws k
      if g.dataAt (g.ravel_index (d.1 : ℤ) (d.2 : ℤ)) = 0
          ∧ g.check_noise (d.1 : ℤ) (d.2 : ℤ) = true then
        some (some d)
      else
        select_cell g draws fuel (k + 1) iteration
    else
      some none

/-- `GoalGenerator.get_next`: run the candidate-draw loop from
`iteration = 0`; on acceptance convert the cell with `grid_to_world_2d`
and wrap it via `_create_pos` with `z_world_floor = 0` and
`euler_orientation = [0, 0, 0]`; if the loop ever exits, return `None`.
`none` (at the outer level) means the call has not returned within `fuel`
loop iterations. -/
noncomputable def get_next (g : Grid) (draws : ℕ → ℕ × ℕ) (fuel : ℕ) :
    Option (Option Pose) :=
  (select_cell g draws fuel 0 0).map (Option.map fun d =>
    let w := g.grid_to_world_2d (d.1 : ℤ) (d.2 : ℤ)
    _create_pos w.1 w.2 0 0 0 0)

/-- Python exceptions that can arise on the paths of
`RouteManager.route_forever` we model: `AttributeError` (reading an
attribute `__init__` never set, or calling `get_next`/`next` on the wrong
kind of goal source), `StopIteration` (from `next(itertools.cycle([]))`),
`IndexError` (from `random.choice([])`), `TypeError` (from `next` on a
non-iterator), and `ValueError` (raised by `to_move_goal` on a `None`
pose). -/
inductive PyExc where
  | attributeError
  | stopIteration
  | indexError
  | typeError
  | valueError
deriving DecidableEq

/-- The goal source `self.goals` selected by `RouteManager.route_modes`:
`itertools.cycle(goals)` for `'inorder'` (a list plus the cursor of the
cycle), the `random.choice` generator for `'random'`, and a
`GoalGenerator()` for `'dynamic'` (whose map interaction is supplied by the
per-iteration environment). -/
inductive GoalSrc where
  | inorder (poses : List Pose) (idx : ℕ)
  | rand (poses : List Pose)
  | dynamic

/-- The mutable attributes of a `RouteManager` instance that
`route_forever` reads: `self.route_mode`, `self.goals` and
`self.bad_goal_counter`.  The latter two are `Option`s because
`__init__` returns early on an unknown mode, leaving them **unset**;
reading an unset attribute raises `AttributeError`. -/
structure RouteManager where
  route_mode : String
  goals : Option GoalSrc
  bad_goal_counter : Option ℕ

/-- `RouteManager.__init__` (after the blocking `wait_for_server()`):
store `self.route_mode`; if the mode is not a key of `route_modes`, log and
return early — leaving `self.goals` and `self.bad_goal_counter` unset;
otherwise (after the purely informational log when `poses` is empty and the
mode is not `'dynamic'`) build `self.goals` from the mode and set
`self.bad_goal_counter = 0`. -/
def RouteManager.init (mode : String) (poses : List Pose) : RouteManager :=
  if ¬(mode = "inorder" ∨ mode = "random" ∨ mode = "dynamic") then
    { route_mode := mode, goals := none, bad_goal_counter := none }
  else
    { route_mode := mode,
      goals := some (if mode = "inorder" then .inorder poses 0
                     else if mode = "random" then .rand poses
                     else .dynamic),
      bad_goal_counter := some 0 }

/-- `True` exactly when `__init__` emits one of its two configuration
complaints: the `logerr` for an unknown route mode, or the `loginfo`
"initialized no goals, unable to route" for an empty pose list under a
non-dynamic mode. -/
def RouteManager.init_config_complaint (mode : String) (poses : List Pose) :
    Bool :=
  decide ((¬(mode = "inorder" ∨ mode = "random" ∨ mode = "dynamic")) ∨
    (poses.length = 0 ∧ ¬ mode = "dynamic"))

/-- `RouteManager.to_move_goal`: raises `ValueError` when the pose is
`None`; otherwise builds the `MoveBaseGoal` (header stamped now, frame
`'map'`) around the pose — the payload we track is the pose itself. -/
def to_move_goal (pose : Option Pose) : Except PyExc Pose :=
  match pose with
  | none => .error .valueError
  | some p => .ok p

/-- The external inputs consumed by one iteration of the `route_forever`
loop: the `rospy.is_shutdown()` flag, the value returned by
`GoalGenerator.get_next()` in dynamic mode, the index drawn by
`random.choice` in random mode, whether the global-plan message arrived
within the 5 s `wait_for_message` window (`False` models the
`ROSException`), and the two action-client results
(`wait_for_result()` and `get_result()`), which are only logged. -/
structure IterEnv where
  shutdown : Bool
  dynamicPose : Option Pose
  randPick : ℕ
  planArrived : Bool
  serverReady : Bool
  resultOk : Bool

/-- Outcome of one iteration of the `while not rospy.is_shutdown()` loop:
`done` = `route_forever` returned (with the final attribute state and
whether `send_goal` ran this iteration), `crashed` = an exception other
than the caught `ValueError` propagated out of `route_forever`,
`next` = the loop continues with the updated state. -/
inductive StepOut where
  | done (s : RouteManager) (submitted : Bool)
  | crashed (e : PyExc) (s : RouteManager) (submitted : Bool)
  | next (s : RouteManager) (submitted : Bool)

/-- The attribute state after the iteration. -/
def StepOut.state : StepOut → RouteManager
  | .done s _ => s
  | .crashed _ s _ => s
  | .next s _ => s

/-- Whether `send_goal` was reached in the iteration. -/
def StepOut.submitted : StepOut → Bool
  | .done _ b => b
  | .crashed _ _ b => b
  | .next _ b => b

/-- The escaped exception, if any. -/
def StepOut.exc : StepOut → Option PyExc
  | .crashed e _ _ => some e
  | _ => none

/-- Whether `route_forever` returned in this iteration. -/
def StepOut.isDone : StepOut → Bool
  | .done _ _ => true
  | _ => false

/-- The goal-acquisition expression of one `route_forever` iteration:
`self.goals.get_next()` when `self.route_mode == 'dynamic'` (an
`AttributeError` if `self.goals` is unset or is not a `GoalGenerator`),
else `next(self.goals)` (an `AttributeError` if `self.goals` is unset, a
`StopIteration` from `itertools.cycle([])`, an `IndexError` from
`random.choice([])`, a `TypeError` if `self.goals` is not an iterator).
On success it yields the pose (possibly `None` in dynamic mode) and the
advanced goal source. -/
def RouteManager.acquire (s : RouteManager) (env : IterEnv) :
    Except PyExc (Option Pose × Option GoalSrc) :=
  if s.route_mode = "dynamic" then
    match s.goals with
    | some .dynamic => .ok (env.dynamicPose, s.goals)
    | some _ => .error .attributeError
    | none => .error .attributeError
  else
    match s.goals with
    | none => .error .attributeError
    | some (.inorder poses i) =>
      if hp : poses.length = 0 then .error .stopIteration
      else .ok (some (poses.get
                  ⟨i % poses.length,
                   Nat.mod_lt _ (Nat.pos_of_ne_zero hp)⟩),
                some (.inorder poses (i + 1)))
    | some (.rand poses) =>
      if hp : poses.length = 0 then .error .indexError
      else .ok (some (poses.get
                  ⟨env.randPick % poses.length,
                   Nat.mod_lt _ (Nat.pos_of_ne_zero hp)⟩),
                some (.rand poses))
    | some .dynamic => .error .typeError

/-- The body of one `route_forever` iteration after the budget check, when
`self.bad_goal_counter = c`: acquire the next pose and convert it with
`to_move_goal` — inside the `try` whose `except ValueError` logs and makes
`route_forever` return, so every other exception propagates (`crashed`);
then `send_goal` (`submitted = true`); then wait up to 5 s for the global
plan: on timeout (`ROSException`) increment `self.bad_goal_counter` and
continue immediately, otherwise `wait_for_result()`/`get_result()` are
merely logged, `rate.sleep()` runs, and the loop continues with the
counter unchanged. -/
def RouteManager.stepBody (s : RouteManager) (env : IterEnv) (c : ℕ) :
    StepOut :=
  match s.acquire env with
  | .error e => .crashed e s false
  | .ok (pose, goals2) =>
    match to_move_goal pose with
    | .error _ => .done { s with goals := goals2 } false
    | .ok _goal =>
      if env.planArrived then
        .next { s with goals := goals2 } true
      else
        .next { s with goals := goals2, bad_goal_counter := some (c + 1) } true

/-- One iteration of `RouteManager.route_forever`:
check `rospy.is_shutdown()`; return if `self.bad_goal_counter > 10`
(reading the attribute raises `AttributeError` if `__init__` never set
it); otherwise run the acquisition/submission/wait body. -/
def RouteManager.step (s : RouteManager) (env : IterEnv) : StepOut :=
  if env.shutdown then .done s false
  else
    match s.bad_goal_counter with
    | none => .crashed .attributeError s false
    | some c =>
      if 10 < c then .done s false
      else s.stepBody env c

/-- Observable status of the `route_forever` loop before a given
iteration. -/
inductive RunSt where
  | running (s : RouteManager)
  | done
  | crashed (e : PyExc)

/-- The loop state of `route_forever` before iteration `n`, when the
iteration environments are `envs` and the initial attribute state is `s0`:
still `running` some state, returned (`done`), or terminated by an escaped
exception (`crashed`). -/
def RouteManager.run (envs : ℕ → IterEnv) (s0 : RouteManager) :
    ℕ → RunSt
  | 0 => .running s0
  | n + 1 =>
    match RouteManager.run envs s0 n with
    | .running s =>
      match s.step (envs n) with
      | .done _ _ => .done
      | .crashed e _ _ => .crashed e
      | .next s2 _ => .running s2
    | r => r

/-- Whether `send_goal` runs during iteration `n` of `route_forever`. -/
def RouteManager.submittedAt (envs : ℕ → IterEnv) (s0 : RouteManager)
    (n : ℕ) : Bool :=
  match RouteManager.run envs s0 n with
  | .running s => (s.step (envs n)).submitted
  | _ => false

/-- Whether iteration `n` is a plan-scan timeout: a goal was submitted and
the 5 s `wait_for_message` raised `ROSException`. -/
def RouteManager.timeoutAt (envs : ℕ → IterEnv) (s0 : RouteManager)
    (n : ℕ) : Bool :=
  RouteManager.submittedAt envs s0 n && !(envs n).planArrived

/-- Number of plan-scan timeouts among iterations `0, ..., n-1`. -/
def RouteManager.timeoutCount (envs : ℕ → IterEnv) (s0 : RouteManager)
    (n : ℕ) : ℕ :=
  (List.range n).countP fun m => RouteManager.timeoutAt envs s0 m

/-! ## Example inputs used by witnesses and counterexamples -/

/-- A 5×5 grid, yaw 0, origin (0,0), resolution 1, free everywhere except
cell (2,0) (flat index 2), which is occupied. -/
def exGrid5 : Grid :=
  ⟨5, 5, 1, 0, 0, 0,
   [0, 0, 100, 0, 0,
    0, 0, 0, 0, 0,
    0, 0, 0, 0, 0,
    0, 0, 0, 0, 0,
    0, 0, 0, 0, 0]⟩

/-- A 1×1 grid whose only cell is free. -/
def exGridFree : Grid := ⟨1, 1, 1, 0, 0, 0, [0]⟩

/-- A 1×1 fully occupied grid. -/
def exGridOcc : Grid := ⟨1, 1, 1, 0, 0, 0, [100]⟩

/-! ## Shared lemmas about the occupancy grid -/

/-- The row-major index of an in-bounds cell lies in `[0, width*height)`. -/
theorem ravel_index_bounds (g : Grid) {i j : ℤ}
    (hi0 : 0 ≤ i) (hiw : i < (g.width : ℤ))
    (hj0 : 0 ≤ j) (hjh : j < (g.height : ℤ)) :
    0 ≤ g.ravel_index i j ∧
      g.ravel_index i j < (g.width : ℤ) * (g.height : ℤ) := by
  unfold Grid.ravel_index
  constructor
  · have := mul_nonneg hj0 (Int.natCast_nonneg g.width)
    omega
  · have h1 : j * (g.width : ℤ) ≤ ((g.height : ℤ) - 1) * (g.width : ℤ) :=
      mul_le_mul_of_nonneg_right (by omega) (Int.natCast_nonneg g.width)
    have h2 : ((g.height : ℤ) - 1) * (g.width : ℤ)
        = (g.height : ℤ) * (g.width : ℤ) - (g.width : ℤ) := by ring
    have h3 : (g.width : ℤ) * (g.height : ℤ)
        = (g.height : ℤ) * (g.width : ℤ) := by ring
    linarith

/-- Any flat index visited by the `check_noise` loops comes from an
in-bounds cell whose column is below `r_bound` and row below `b_bound`. -/
theorem mem_noise_indices (g : Grid) (x y : ℤ) {idx : ℤ}
    (h : idx ∈ g.noise_indices x y) :
    ∃ i j : ℤ, idx = g.ravel_index i j ∧
      0 ≤ i ∧ i < (g.width : ℤ) ∧ 0 ≤ j ∧ j < (g.height : ℤ) := by
  unfold Grid.noise_indices at h
  simp only [List.mem_flatMap, List.mem_map] at h
  obtain ⟨i, hi, j, hj, rfl⟩ := h
  rw [mem_int_range] at hi hj
  exact ⟨i, j, rfl, by omega, by omega, by omega, by omega⟩

/-! ## C7: the grid-to-world transform -/

/-- C7: for every grid cell `(x, y)`, `grid_to_world_2d(x, y)` equals
`(x0 + cos(yaw)·resolution·x − sin(yaw)·resolution·y,
  y0 + sin(yaw)·resolution·x + cos(yaw)·resolution·y)`; in particular,
when `yaw = 0` and the origin is `(0, 0)`, it equals
`(resolution·x, resolution·y)` exactly. -/
theorem claim_C7 (g : Grid) (x y : ℤ) :
    g.grid_to_world_2d x y =
      (g.map_origin_x0 + Real.cos g.map_yaw * g.resolution * (x : ℝ)
         - Real.sin g.map_yaw * g.resolution * (y : ℝ),
       g.map_origin_y0 + Real.sin g.map_yaw * g.resolution * (x : ℝ)
         + Real.cos g.map_yaw * g.resolution * (y : ℝ)) ∧
    (g.map_yaw = 0 → g.map_origin_x0 = 0 → g.map_origin_y0 = 0 →
      g.grid_to_world_2d x y = (g.resolution * (x : ℝ), g.resolution * (y : ℝ))) := by
  constructor
  · unfold Grid.grid_to_world_2d
    rw [Prod.mk.injEq]
    constructor <;> ring
  · intro hyaw hx0 hy0
    unfold Grid.grid_to_world_2d
    rw [hyaw, hx0, hy0, Real.cos_zero, Real.sin_zero, Prod.mk.injEq]
    constructor <;> ring

/-- Witness for C7: on the concrete 5×5 grid with yaw 0 and origin (0,0),
the transform of cell (3, 4) is exactly `(resolution·3, resolution·4)`. -/
theorem claim_C7_witness :
    exGrid5.grid_to_world_2d 3 4 =
      (exGrid5.resolution * ((3 : ℤ) : ℝ), exGrid5.resolution * ((4 : ℤ) : ℝ)) :=
  (claim_C7 exGrid5 3 4).2 rfl rfl rfl

/-! ## C8: row-major linearization is a bijection -/

/-- C8: for every grid with positive width and height, the map
`(x, y) ↦ ravel_index(x, y) = y·width + x` is a bijection from
`[0, width) × [0, height)` onto `[0, width·height)`. -/
theorem claim_C8 (g : Grid) (hw : 0 < g.width) (hh : 0 < g.height) :
    Set.BijOn (fun p : ℤ × ℤ => g.ravel_index p.1 p.2)
      (Set.Ico 0 (g.width : ℤ) ×ˢ Set.Ico 0 (g.height : ℤ))
      (Set.Ico 0 ((g.width : ℤ) * (g.height : ℤ))) := by
  have hwz : (0 : ℤ) < (g.width : ℤ) := by exact_mod_cast hw
  refine ⟨?_, ?_, ?_⟩
  · rintro ⟨x, y⟩ ⟨⟨hx0, hxw⟩, ⟨hy0, hyh⟩⟩
    exact ravel_index_bounds g hx0 hxw hy0 hyh
  · rintro ⟨x1, y1⟩ ⟨⟨hx10, hx1w⟩, ⟨hy10, hy1h⟩⟩
      ⟨x2, y2⟩ ⟨⟨hx20, hx2w⟩, ⟨hy20, hy2h⟩⟩ heq
    simp only [Grid.ravel_index] at heq
    have e1 : (y1 * (g.width : ℤ) + x1) % (g.width : ℤ) = x1 := by
      rw [show y1 * (g.width : ℤ) + x1 = x1 + (g.width : ℤ) * y1 by ring,
        Int.add_mul_emod_self_left]
      exact Int.emod_eq_of_lt hx10 hx1w
    have e2 : (y2 * (g.width : ℤ) + x2) % (g.width : ℤ) = x2 := by
      rw [show y2 * (g.width : ℤ) + x2 = x2 + (g.width : ℤ) * y2 by ring,
        Int.add_mul_emod_self_left]
      exact Int.emod_eq_of_lt hx20 hx2w
    have hx : x1 = x2 := by rw [← e1, ← e2, heq]
    have hy : y1 = y2 := by
      have : y1 * (g.width : ℤ) = y2 * (g.width : ℤ) := by omega
      exact mul_right_cancel₀ (by omega) this
    simp [hx, hy]
  · rintro k ⟨hk0, hkwh⟩
    refine ⟨(k % (g.width : ℤ), k / (g.width : ℤ)), ⟨⟨?_, ?_⟩, ⟨?_, ?_⟩⟩, ?_⟩
    · exact Int.emod_nonneg k (by omega)
    · exact Int.emod_lt_of_pos k hwz
    · exact Int.ediv_nonneg hk0 (by omega)
    · rw [Int.ediv_lt_iff_lt_mul hwz]
      have : (g.width : ℤ) * (g.height : ℤ) = (g.height : ℤ) * (g.width : ℤ) := by
        ring
      omega
    · have h4 := Int.ediv_add_emod k (g.width : ℤ)
      simp only [Grid.ravel_index]
      have h5 : k / (g.width : ℤ) * (g.width : ℤ)
          = (g.width : ℤ) * (k / (g.width : ℤ)) := by ring
      omega

/-- Witness for C8: the bijection property at the concrete 5×5 grid. -/
theorem claim_C8_witness :
    Set.BijOn (fun p : ℤ × ℤ => exGrid5.ravel_index p.1 p.2)
      (Set.Ico 0 (exGrid5.width : ℤ) ×ˢ Set.Ico 0 (exGrid5.height : ℤ))
      (Set.Ico 0 ((exGrid5.width : ℤ) * (exGrid5.height : ℤ))) :=
  claim_C8 exGrid5 (by decide) (by decide)

/-! ## C2: the `check_noise` window -/

/-- Modelled from the claim's words (C2): some cell whose coordinates lie
within the window `[x−Δx, x+Δx] × [y−Δy, y+Δy]`, clamped to the grid
bounds (so both endpoints included), has a non-zero occupancy value, where
`Δx = max(2, width/50)` and `Δy = max(2, height/50)`. -/
def claim_window_occupied (g : Grid) (x y : ℤ) : Prop :=
  ∃ i j : ℤ,
    max 0 (x - max 2 ((g.width : ℤ) / 50)) ≤ i ∧
    i ≤ min ((g.width : ℤ) - 1) (x + max 2 ((g.width : ℤ) / 50)) ∧
    max 0 (y - max 2 ((g.height : ℤ) / 50)) ≤ j ∧
    j ≤ min ((g.height : ℤ) - 1) (y + max 2 ((g.height : ℤ) / 50)) ∧
    g.dataAt (g.ravel_index i j) ≠ 0

/-- Counterexample to C2 as stated: on the 5×5 grid whose only occupied
cell is (2, 0), the inclusive clamped window of cell (0, 0) is
`[0,2] × [0,2]` and contains that occupied cell, so the claim demands
`check_noise(0,0) = false`; but the code's `range(l_bound, r_bound)` loops
exclude the upper bounds, scan only `[0,2) × [0,2)`, and return `True`. -/
theorem claim_C2_counterexample :
    claim_window_occupied exGrid5 0 0 ∧ exGrid5.check_noise 0 0 = true := by
  constructor
  · exact ⟨2, 0, by decide, by decide, by decide, by decide, by decide⟩
  · decide

/-- C2 (amended): for every grid cell `(x, y)` with `0 ≤ x < width` and
`0 ≤ y < height`, `check_noise(x, y)` returns false iff some cell whose
coordinates lie in the **half-open** clamped window
`[max(0, x−Δx), min(width−1, x+Δx)) × [max(0, y−Δy), min(height−1, y+Δy))`
— the upper clamped bound being excluded by Python's `range` — has a
non-zero occupancy value, where `Δx = max(2, width/50)` and
`Δy = max(2, height/50)`; it returns true otherwise. -/
theorem claim_C2_amended (g : Grid) (x y : ℤ)
    (hx0 : 0 ≤ x) (hxw : x < (g.width : ℤ))
    (hy0 : 0 ≤ y) (hyh : y < (g.height : ℤ)) :
    g.check_noise x y = false ↔
      ∃ i j : ℤ,
        max 0 (x - max 2 ((g.width : ℤ) / 50)) ≤ i ∧
        i < min ((g.width : ℤ) - 1) (x + max 2 ((g.width : ℤ) / 50)) ∧
        max 0 (y - max 2 ((g.height : ℤ) / 50)) ≤ j ∧
        j < min ((g.height : ℤ) - 1) (y + max 2 ((g.height : ℤ) / 50)) ∧
        g.dataAt (g.ravel_index i j) ≠ 0 := by
  rw [Bool.eq_false_iff]
  unfold Grid.check_noise
  simp only [ne_eq, List.all_eq_true, beq_iff_eq, not_forall]
  constructor
  · rintro ⟨i, hi, j, hj, hne⟩
    rw [mem_int_range] at hi hj
    exact ⟨i, j, hi.1, hi.2, hj.1, hj.2, hne⟩
  · rintro ⟨i, j, hi1, hi2, hj1, hj2, hne⟩
    exact ⟨i, mem_int_range.2 ⟨hi1, hi2⟩, j, mem_int_range.2 ⟨hj1, hj2⟩, hne⟩

/-- Witness for C2 (amended): on the 5×5 grid, `check_noise(1, 1)` is
false since the occupied cell (2, 0) lies inside the half-open window
`[0,3) × [0,3)` of (1, 1). -/
theorem claim_C2_amended_witness : exGrid5.check_noise 1 1 = false :=
  (claim_C2_amended exGrid5 1 1 (by decide) (by decide) (by decide)
    (by decide)).2
    ⟨2, 0, by decide, by decide, by decide, by decide, by decide⟩

/-! ## C10: all occupancy reads are in range -/

/-- C10: for every grid whose occupancy array has length `width·height`
with positive dimensions, the reads performed by `check_noise` (for any
integer arguments) and by the accepted-draw test of `get_next` stay inside
`[0, width·height)` — i.e. inside the array: `check_noise` reads exactly
the indices of `noise_indices`, each of those is in range, and the index
of any random draw `(x, y)` with `x < width`, `y < height` is in range. -/
theorem claim_C10 (g : Grid) (hlen : g.data.length = g.width * g.height)
    (hw : 0 < g.width) (hh : 0 < g.height) :
    (∀ x y : ℤ, g.check_noise x y =
      ((g.noise_indices x y).all fun i => g.dataAt i == 0)) ∧
    (∀ x y idx : ℤ, idx ∈ g.noise_indices x y →
      0 ≤ idx ∧ idx.toNat < g.data.length) ∧
    (∀ x y : ℕ, x < g.width → y < g.height →
      0 ≤ g.ravel_index (x : ℤ) (y : ℤ) ∧
        (g.ravel_index (x : ℤ) (y : ℤ)).toNat < g.data.length) := by
  refine ⟨fun x y => check_noise_eq_all_noise_indices g x y, ?_, ?_⟩
  · intro x y idx hidx
    obtain ⟨i, j, rfl, hi0, hiw, hj0, hjh⟩ := mem_noise_indices g x y hidx
    have hb := ravel_index_bounds g hi0 hiw hj0 hjh
    have hcast : ((g.width * g.height : ℕ) : ℤ)
        = (g.width : ℤ) * (g.height : ℤ) := by push_cast; ring
    rw [hlen]
    omega
  · intro x y hx hy
    have hb := @ravel_index_bounds g (x : ℤ) (y : ℤ)
      (Int.natCast_nonneg x) (by exact_mod_cast hx)
      (Int.natCast_nonneg y) (by exact_mod_cast hy)
    have hcast : ((g.width * g.height : ℕ) : ℤ)
        = (g.width : ℤ) * (g.height : ℤ) := by push_cast; ring
    rw [hlen]
    omega

/-- Witness for C10: the read of drawn cell (3, 4) on the 5×5 grid is in
range of its 25-element occupancy array. -/
theorem claim_C10_witness :
    0 ≤ exGrid5.ravel_index ((3 : ℕ) : ℤ) ((4 : ℕ) : ℤ) ∧
      (exGrid5.ravel_index ((3 : ℕ) : ℤ) ((4 : ℕ) : ℤ)).toNat
        < exGrid5.data.length :=
  (claim_C10 exGrid5 rfl (by decide) (by decide)).2.2 3 4 (by decide)
    (by decide)

/-! ## C1: the retry budget of `get_next` -/

/-- When no draw is ever accepted, the `get_next` loop never leaves its
body: `iteration` stays `0 < 100` because the source never increments it,
so after any number of loop iterations the call still has not returned. -/
theorem select_cell_stuck (g : Grid) (draws : ℕ → ℕ × ℕ)
    (hrej : ∀ k, ¬(g.dataAt (g.ravel_index ((draws k).1 : ℤ) ((draws k).2 : ℤ)) = 0
      ∧ g.check_noise ((draws k).1 : ℤ) ((draws k).2 : ℤ) = true)) :
    ∀ fuel k, select_cell g draws fuel k 0 = none := by
  intro fuel
  induction fuel with
  | zero => intro k; rfl
  | succ fuel ih =>
    intro k
    unfold select_cell
    rw [if_pos (by omega)]
    rw [if_neg (hrej k)]
    exact ih (k + 1)

/-- C1 (refuting the claim; the code diverges from it): on any grid with
no cell that is both free and noise-clean — and with the draws inside the
ranges `randint` guarantees — `get_next` has not returned after ANY number
of loop iterations: the loop variable `iteration` is never incremented, so
the `iteration < timeout_iter` guard never fails, the `return None` after
the loop is unreachable, and the call never terminates — it does not
return the `NotFound` sentinel after 100 draws. -/
theorem claim_C1_code_divergence (g : Grid) (draws : ℕ → ℕ × ℕ)
    (hd : ∀ k, (draws k).1 < g.width ∧ (draws k).2 < g.height)
    (hrej : ∀ x y : ℕ, x < g.width → y < g.height →
      ¬(g.dataAt (g.ravel_index (x : ℤ) (y : ℤ)) = 0
        ∧ g.check_noise (x : ℤ) (y : ℤ) = true)) :
    ∀ fuel, get_next g draws fuel = none := by
  intro fuel
  unfold get_next
  rw [select_cell_stuck g draws
    (fun k => hrej (draws k).1 (draws k).2 (hd k).1 (hd k).2) fuel 0]
  rfl

/-- Witness for C1: on the fully occupied 1×1 grid, `get_next` still has
not returned after 250 loop iterations (nor after any other number). -/
theorem claim_C1_witness :
    get_next exGridOcc (fun _ => (0, 0)) 250 = none :=
  claim_C1_code_divergence exGridOcc (fun _ => (0, 0))
    (fun _ => ⟨Nat.zero_lt_one, Nat.zero_lt_one⟩)
    (fun x y hx hy h => by
      have hx0 : x = 0 := by
        have : exGridOcc.width = 1 := rfl
        omega
      have hy0 : y = 0 := by
        have : exGridOcc.height = 1 := rfl
        omega
      subst hx0
      subst hy0
      exact absurd h (by decide))
    250

/-! ## C6: every pose returned by `get_next` is valid -/

/-- `tf.transformations.quaternion_from_euler(0, 0, 0)` is the identity
quaternion `(0, 0, 0, 1)`. -/
theorem quaternion_from_euler_zero :
    quaternion_from_euler 0 0 0 = (0, 0, 0, 1) := by
  unfold quaternion_from_euler
  norm_num

/-- A cell accepted by the `get_next` loop was one of the draws and passed
both acceptance tests (`data[_row_id] == 0` and `check_noise`). -/
theorem select_cell_accepted (g : Grid) (draws : ℕ → ℕ × ℕ) :
    ∀ fuel k iteration d,
      select_cell g draws fuel k iteration = some (some d) →
      (∃ m, d = draws m) ∧
        g.dataAt (g.ravel_index (d.1 : ℤ) (d.2 : ℤ)) = 0 ∧
        g.check_noise (d.1 : ℤ) (d.2 : ℤ) = true := by
  intro fuel
  induction fuel with
  | zero => intro k iteration d h; exact absurd h (by simp [select_cell])
  | succ fuel ih =>
    intro k iteration d h
    unfold select_cell at h
    by_cases hit : iteration < 100
    · rw [if_pos hit] at h
      by_cases hacc : g.dataAt (g.ravel_index ((draws k).1 : ℤ) ((draws k).2 : ℤ)) = 0
          ∧ g.check_noise ((draws k).1 : ℤ) ((draws k).2 : ℤ) = true
      · rw [if_pos hacc] at h
        obtain rfl : d = draws k := by
          injection h with h1
          injection h1 with h2
          exact h2.symm
        exact ⟨⟨k, rfl⟩, hacc.1, hacc.2⟩
      · rw [if_neg hacc] at h
        exact ih (k + 1) iteration d h
    · rw [if_neg hit] at h
      injection h with h1
      exact absurd h1.symm (by simp)

/-- C6: every pose returned by `get_next` corresponds to a drawn grid cell
whose occupancy value is 0 and which passes the noise check; the pose's
world coordinates come from `grid_to_world_2d` on that cell, its z
coordinate is 0, and its orientation is the identity quaternion
`(0, 0, 0, 1)`. -/
theorem claim_C6 (g : Grid) (draws : ℕ → ℕ × ℕ) (fuel : ℕ) (p : Pose)
    (hd : ∀ k, (draws k).1 < g.width ∧ (draws k).2 < g.height)
    (h : get_next g draws fuel = some (some p)) :
    ∃ x y : ℕ, x < g.width ∧ y < g.height ∧
      g.dataAt (g.ravel_index (x : ℤ) (y : ℤ)) = 0 ∧
      g.check_noise (x : ℤ) (y : ℤ) = true ∧
      p.px = (g.grid_to_world_2d (x : ℤ) (y : ℤ)).1 ∧
      p.py = (g.grid_to_world_2d (x : ℤ) (y : ℤ)).2 ∧
      p.pz = 0 ∧ p.ox = 0 ∧ p.oy = 0 ∧ p.oz = 0 ∧ p.ow = 1 := by
  unfold get_next at h
  cases hsel : select_cell g draws fuel 0 0 with
  | none => rw [hsel] at h; exact absurd h (by simp)
  | some o =>
    rw [hsel] at h
    cases o with
    | none => exact absurd h (by simp)
    | some d =>
      simp only [Option.map_some] at h
      injection h with h1
      injection h1 with h2
      obtain ⟨⟨m, hm⟩, hfree, hnoise⟩ :=
        select_cell_accepted g draws fuel 0 0 d hsel
      refine ⟨d.1, d.2, ?_, ?_, hfree, hnoise, ?_⟩
      · rw [hm]; exact (hd m).1
      · rw [hm]; exact (hd m).2
      · rw [← h2]
        unfold _create_pos
        rw [quaternion_from_euler_zero]
        exact ⟨rfl, rfl, rfl, rfl, rfl, rfl, rfl⟩

/-- The pose `get_next` returns on the free 1×1 grid when every draw is
(0, 0). -/
noncomputable def exFreePose : Pose :=
  _create_pos (exGridFree.grid_to_world_2d 0 0).1
    (exGridFree.grid_to_world_2d 0 0).2 0 0 0 0

/-- Witness for C6: the concrete returned pose on the free 1×1 grid
satisfies all the validity properties. -/
theorem claim_C6_witness :
    ∃ x y : ℕ, x < exGridFree.width ∧ y < exGridFree.height ∧
      exGridFree.dataAt (exGridFree.ravel_index (x : ℤ) (y : ℤ)) = 0 ∧
      exGridFree.check_noise (x : ℤ) (y : ℤ) = true ∧
      exFreePose.px = (exGridFree.grid_to_world_2d (x : ℤ) (y : ℤ)).1 ∧
      exFreePose.py = (exGridFree.grid_to_world_2d (x : ℤ) (y : ℤ)).2 ∧
      exFreePose.pz = 0 ∧ exFreePose.ox = 0 ∧ exFreePose.oy = 0 ∧
      exFreePose.oz = 0 ∧ exFreePose.ow = 1 :=
  claim_C6 exGridFree (fun _ => (0, 0)) 1 exFreePose
    (fun _ => ⟨Nat.zero_lt_one, Nat.zero_lt_one⟩) rfl

/-! ## Shared lemmas about the dispatch loop -/

/-- With the failure budget exceeded (and also under a shutdown request),
the iteration returns immediately without submitting. -/
theorem step_done_of_budget {s : RouteManager} (env : IterEnv) {c : ℕ}
    (hc : s.bad_goal_counter = some c) (h10 : 10 < c) :
    s.step env = .done s false := by
  unfold RouteManager.step
  cases hsd : env.shutdown <;> simp [hsd, hc, h10]

/-- Inversion of a continuing iteration body: the iteration submitted a
goal, kept the route mode, and the counter became `c` or `c + 1`
according to whether the plan scan succeeded. -/
theorem stepBody_next {s s2 : RouteManager} {env : IterEnv} {sub : Bool}
    {c : ℕ} (hc : s.bad_goal_counter = some c)
    (h : s.stepBody env c = .next s2 sub) :
    sub = true ∧ s2.route_mode = s.route_mode ∧
      s2.bad_goal_counter = some (if env.planArrived then c else c + 1) := by
  unfold RouteManager.stepBody at h
  cases hacq : s.acquire env with
  | error e => rw [hacq] at h; cases h
  | ok pr =>
    rw [hacq] at h
    obtain ⟨pose, goals2⟩ := pr
    cases pose with
    | none => simp [to_move_goal] at h
    | some p =>
      simp only [to_move_goal] at h
      by_cases hpa : env.planArrived = true
      · rw [if_pos hpa] at h
        cases h
        exact ⟨rfl, rfl, by rw [if_pos hpa]; exact hc⟩
      · rw [if_neg hpa] at h
        cases h
        exact ⟨rfl, rfl, by rw [if_neg hpa]⟩

/-- Inversion of a continuing iteration: the previous counter was some
`c ≤ 10` and it evolved exactly by the plan-scan outcome. -/
theorem step_next_inversion {s s2 : RouteManager} {env : IterEnv}
    {sub : Bool} (h : s.step env = .next s2 sub) :
    sub = true ∧ ∃ c, s.bad_goal_counter = some c ∧ c ≤ 10 ∧
      s2.route_mode = s.route_mode ∧
      s2.bad_goal_counter = some (if env.planArrived then c else c + 1) := by
  unfold RouteManager.step at h
  by_cases hsd : env.shutdown = true
  · rw [if_pos hsd] at h; cases h
  · rw [if_neg hsd] at h
    cases hc : s.bad_goal_counter with
    | none => simp only [hc] at h; cases h
    | some c =>
      simp only [hc] at h
      by_cases h10 : 10 < c
      · rw [if_pos h10] at h
        cases h
      · rw [if_neg h10] at h
        obtain ⟨hsub, hmode, hcnt⟩ := stepBody_next hc h
        exact ⟨hsub, c, rfl, by omega, hmode, hcnt⟩

/-- If the loop is running before iteration `n + 1`, it was running before
iteration `n` and that iteration continued. -/
theorem run_succ_running {envs : ℕ → IterEnv} {s0 : RouteManager} {n : ℕ}
    {s2 : RouteManager}
    (h : RouteManager.run envs s0 (n + 1) = .running s2) :
    ∃ s sub, RouteManager.run envs s0 n = .running s ∧
      s.step (envs n) = .next s2 sub := by
  unfold RouteManager.run at h
  cases hr : RouteManager.run envs s0 n with
  | running s =>
    simp only [hr] at h
    cases hst : s.step (envs n) with
    | done s3 sub => simp only [hst] at h; cases h
    | crashed e s3 sub => simp only [hst] at h; cases h
    | next s3 sub =>
      simp only [hst] at h
      cases h
      exact ⟨s, sub, rfl, hst⟩
  | done => simp only [hr] at h; cases h
  | crashed e => simp only [hr] at h; cases h

/-- Once `route_forever` has returned, it stays returned. -/
theorem run_done_mono {envs : ℕ → IterEnv} {s0 : RouteManager} {n : ℕ}
    (h : RouteManager.run envs s0 n = .done) :
    ∀ m, n ≤ m → RouteManager.run envs s0 m = .done := by
  intro m hnm
  induction m with
  | zero =>
    have h0 : n = 0 := Nat.le_zero.1 hnm
    exact h0 ▸ h
  | succ m ih =>
    by_cases hm : n ≤ m
    · have hd := ih hm
      unfold RouteManager.run
      simp only [hd]
    · have heq : n = m + 1 := by omega
      exact heq ▸ h

/-- No iteration at or after a `done` state submits a goal. -/
theorem submittedAt_false_of_done {envs : ℕ → IterEnv} {s0 : RouteManager}
    {n : ℕ} (h : RouteManager.run envs s0 n = .done) :
    ∀ m, n ≤ m → RouteManager.submittedAt envs s0 m = false := by
  intro m hnm
  unfold RouteManager.submittedAt
  rw [run_done_mono h m hnm]

/-- The timeout count over `n + 1` iterations adds the `n`-th timeout
indicator to the count over `n` iterations. -/
theorem timeoutCount_succ (envs : ℕ → IterEnv) (s0 : RouteManager) (n : ℕ) :
    RouteManager.timeoutCount envs s0 (n + 1) =
      RouteManager.timeoutCount envs s0 n +
        (if RouteManager.timeoutAt envs s0 n then 1 else 0) := by
  unfold RouteManager.timeoutCount
  rw [List.range_succ, List.countP_append]
  simp [List.countP_cons]

/-! ## Example dispatch inputs used by witnesses -/

/-- A concrete pose record for the preset pose lists. -/
def exPose : Pose := ⟨0, 0, 0, 0, 0, 0, 1⟩

/-- A normal iteration environment: no shutdown, dynamic sampling returns
no pose, the plan arrives in time, the action results are positive. -/
def envNoPose : IterEnv := ⟨false, none, 0, true, true, true⟩

/-- An iteration environment whose 5 s plan scan always times out. -/
def envTimeout : IterEnv := ⟨false, none, 0, false, true, true⟩

/-- Every iteration times out. -/
def envsTimeout : ℕ → IterEnv := fun _ => envTimeout

/-- A manager initialised in `'inorder'` mode with one preset pose. -/
def s0Inorder : RouteManager := RouteManager.init "inorder" [exPose]

/-- The attribute state of `s0Inorder` after 11 plan-scan timeouts. -/
def s11Inorder : RouteManager :=
  ⟨"inorder", some (.inorder [exPose] 11), some 11⟩

/-- The attribute state of `s0Inorder` after one plan-scan timeout. -/
def s1Inorder : RouteManager :=
  ⟨"inorder", some (.inorder [exPose] 1), some 1⟩

/-- A manager initialised in `'dynamic'` mode. -/
def s0Dynamic : RouteManager := RouteManager.init "dynamic" []

/-! ## C3: configuration errors -/

/-- C3: the configuration errors are detected and logged by `__init__`
and no goal is ever submitted, but — contrary to the claim — the run is
not fatal-but-contained: `route_forever` raises an uncaught exception.
With an invalid mode, `__init__` returns early leaving
`self.bad_goal_counter` unset, and the first loop iteration raises
`AttributeError`; with an empty pose list under `'inorder'` (resp.
`'random'`), the first goal acquisition raises `StopIteration` (resp.
`IndexError`).  None of these is the caught `ValueError`, and `main` only
catches `ROSInterruptException`, so they escape. -/
theorem claim_C3_config_error_uncaught :
    ((RouteManager.init "foo" []).step envNoPose).exc
        = some .attributeError ∧
    ((RouteManager.init "foo" []).step envNoPose).submitted = false ∧
    RouteManager.init_config_complaint "foo" [] = true ∧
    ((RouteManager.init "inorder" []).step envNoPose).exc
        = some .stopIteration ∧
    ((RouteManager.init "inorder" []).step envNoPose).submitted = false ∧
    RouteManager.init_config_complaint "inorder" [] = true ∧
    ((RouteManager.init "random" []).step envNoPose).exc
        = some .indexError ∧
    ((RouteManager.init "random" []).step envNoPose).submitted = false ∧
    RouteManager.init_config_complaint "random" [] = true := by
  decide

/-! ## C4: the failure budget terminates the loop -/

/-- C4: once `bad_goal_counter` exceeds 10 the loop terminates at the
start of the next iteration and no further goal is ever submitted; a
continuing iteration never decreases the counter (it is never reset); and
from a freshly initialised state the counter equals the number of
plan-scan timeouts so far — so it reaches 11 exactly after the 11th
timeout, which triggers the termination. -/
theorem claim_C4 :
    (∀ (envs : ℕ → IterEnv) (s0 : RouteManager) (n : ℕ)
        (s : RouteManager) (c : ℕ),
      RouteManager.run envs s0 n = .running s →
      s.bad_goal_counter = some c → 10 < c →
      RouteManager.run envs s0 (n + 1) = .done ∧
        ∀ m, n ≤ m → RouteManager.submittedAt envs s0 m = false) ∧
    (∀ (s : RouteManager) (env : IterEnv) (s2 : RouteManager) (sub : Bool)
        (c : ℕ),
      s.bad_goal_counter = some c → s.step env = .next s2 sub →
      s2.bad_goal_counter = some c ∨ s2.bad_goal_counter = some (c + 1)) ∧
    (∀ (envs : ℕ → IterEnv) (s0 : RouteManager) (n : ℕ) (s : RouteManager),
      s0.bad_goal_counter = some 0 →
      RouteManager.run envs s0 n = .running s →
      s.bad_goal_counter = some (RouteManager.timeoutCount envs s0 n)) := by
  refine ⟨?_, ?_, ?_⟩
  · intro envs s0 n s c hrun hc h10
    have hstep := step_done_of_budget (envs n) hc h10
    have hdone : RouteManager.run envs s0 (n + 1) = .done := by
      unfold RouteManager.run
      simp only [hrun, hstep]
    refine ⟨hdone, ?_⟩
    intro m hm
    by_cases hmn : m = n
    · subst hmn
      unfold RouteManager.submittedAt
      simp only [hrun, hstep, StepOut.submitted]
    · exact submittedAt_false_of_done hdone m (by omega)
  · intro s env s2 sub c hc hstep
    obtain ⟨-, c2, hc2, -, -, hcnt⟩ := step_next_inversion hstep
    rw [hc] at hc2
    injection hc2 with hcc
    subst hcc
    by_cases hpa : env.planArrived = true
    · left; rw [hcnt, if_pos hpa]
    · right; rw [hcnt, if_neg hpa]
  · intro envs s0 n
    induction n with
    | zero =>
      intro s h0 hrun
      unfold RouteManager.run at hrun
      cases hrun
      simpa [RouteManager.timeoutCount] using h0
    | succ n ih =>
      intro s h0 hrun
      obtain ⟨s1, sub, hrn, hstep⟩ := run_succ_running hrun
      have hc1 := ih s1 h0 hrn
      obtain ⟨hsub, c, hc, hcle, hmode, hcnt⟩ := step_next_inversion hstep
      rw [hc1] at hc
      injection hc with hcc
      subst hcc
      have hsubAt : RouteManager.submittedAt envs s0 n = true := by
        unfold RouteManager.submittedAt
        simp only [hrn, hstep, StepOut.submitted, hsub]
      rw [timeoutCount_succ]
      unfold RouteManager.timeoutAt
      rw [hsubAt]
      cases hpa : (envs n).planArrived
      · simp only [hpa] at hcnt
        simpa using hcnt
      · simp only [hpa] at hcnt
        simpa using hcnt

/-- Witness for C4: with every plan scan timing out, the run from the
`'inorder'` one-pose configuration is permanently terminated after the
11th timeout: iteration 12 is past the end, and no later iteration (e.g.
the 20th) submits a goal. -/
theorem claim_C4_witness :
    RouteManager.run envsTimeout s0Inorder 12 = .done ∧
      RouteManager.submittedAt envsTimeout s0Inorder 20 = false := by
  have h := claim_C4.1 envsTimeout s0Inorder 11 s11Inorder 11 rfl rfl
    (by omega)
  exact ⟨h.1, h.2 20 (by omega)⟩

/-! ## C5: `NotFound` from dynamic sampling stops the loop -/

/-- C5: in dynamic mode, when the goal source yields the `NotFound`
sentinel (`None`), the iteration terminates `route_forever` immediately —
through the `ValueError` of `to_move_goal`, which is caught — without
submitting a goal and without changing `bad_goal_counter` (the final
state is the entry state, counter included). -/
theorem claim_C5 (s : RouteManager) (env : IterEnv) (c : ℕ)
    (hm : s.route_mode = "dynamic") (hg : s.goals = some .dynamic)
    (hc : s.bad_goal_counter = some c) (hc10 : c ≤ 10)
    (hsd : env.shutdown = false) (hnp : env.dynamicPose = none) :
    s.step env = .done s false ∧
    (∀ (envs : ℕ → IterEnv) (s0 : RouteManager) (n : ℕ),
      RouteManager.run envs s0 n = .running s → envs n = env →
      RouteManager.run envs s0 (n + 1) = .done ∧
        RouteManager.submittedAt envs s0 n = false) := by
  have hstep : s.step env = .done s false := by
    obtain ⟨mode, goals, cnt⟩ := s
    simp only at hm hg hc
    subst hm
    subst hg
    subst hc
    simp [RouteManager.step, RouteManager.stepBody, RouteManager.acquire,
      hsd, hnp, to_move_goal, Nat.not_lt.2 hc10]
  refine ⟨hstep, ?_⟩
  intro envs s0 n hrun henv
  constructor
  · unfold RouteManager.run
    simp only [hrun, henv, hstep]
  · unfold RouteManager.submittedAt
    simp only [hrun, henv, hstep, StepOut.submitted]

/-- Witness for C5: the freshly initialised dynamic manager, when
sampling yields `None`, returns immediately with untouched state and no
submission. -/
theorem claim_C5_witness :
    s0Dynamic.step envNoPose = .done s0Dynamic false :=
  (claim_C5 s0Dynamic envNoPose 0 rfl rfl rfl (by omega) rfl rfl).1

/-! ## C9: the counter is monotone and driven only by timeouts -/

/-- C9: `bad_goal_counter` starts at 0 for every valid mode, a continuing
iteration yields exactly `c` or `c + 1` according to whether the plan
scan timed out, the action-client results (`wait_for_result`,
`get_result`) have no effect on the iteration at all, and along any run
the counter is monotonically non-decreasing. -/
theorem claim_C9 :
    (∀ (mode : String) (poses : List Pose),
      (mode = "inorder" ∨ mode = "random" ∨ mode = "dynamic") →
      (RouteManager.init mode poses).bad_goal_counter = some 0) ∧
    (∀ (s : RouteManager) (env : IterEnv) (s2 : RouteManager) (sub : Bool)
        (c : ℕ), s.bad_goal_counter = some c →
      s.step env = .next s2 sub →
      sub = true ∧
        s2.bad_goal_counter = some (if env.planArrived then c else c + 1)) ∧
    (∀ (s : RouteManager) (env : IterEnv) (b1 b2 : Bool),
      s.step { env with serverReady := b1, resultOk := b2 } = s.step env) ∧
    (∀ (envs : ℕ → IterEnv) (s0 : RouteManager) (n m : ℕ)
        (sn sm : RouteManager) (cn : ℕ), n ≤ m →
      RouteManager.run envs s0 n = .running sn →
      RouteManager.run envs s0 m = .running sm →
      sn.bad_goal_counter = some cn →
      ∃ cm, sm.bad_goal_counter = some cm ∧ cn ≤ cm) := by
  refine ⟨?_, ?_, ?_, ?_⟩
  · intro mode poses h
    unfold RouteManager.init
    rw [if_neg (not_not_intro h)]
  · intro s env s2 sub c hc hstep
    obtain ⟨hsub, c2, hc2, -, -, hcnt⟩ := step_next_inversion hstep
    rw [hc] at hc2
    injection hc2 with hcc
    subst hcc
    exact ⟨hsub, hcnt⟩
  · intro s env b1 b2
    rfl
  · intro envs s0 n m sn sm cn hnm hrn hrm hcn
    revert sm
    induction m, hnm using Nat.le_induction with
    | base =>
      intro sm hrm
      rw [hrn] at hrm
      cases hrm
      exact ⟨cn, hcn, Nat.le_refl cn⟩
    | succ m hm ih =>
      intro sm hrm
      obtain ⟨s1, sub, hr1, hstep⟩ := run_succ_running hrm
      obtain ⟨cm1, hcm1, hle1⟩ := ih s1 hr1
      obtain ⟨hsub, c, hc, hcle, hmode, hcnt⟩ := step_next_inversion hstep
      rw [hcm1] at hc
      injection hc with hcc
      subst hcc
      refine ⟨if (envs m).planArrived = true then cm1 else cm1 + 1, hcnt, ?_⟩
      split <;> omega

/-- Witness for C9: from the fresh `'inorder'` state, one timed-out
iteration submits and moves the counter from 0 to 1. -/
theorem claim_C9_witness :
    true = true ∧ s1Inorder.bad_goal_counter =
      some (if envTimeout.planArrived then 0 else 0 + 1) :=
  claim_C9.2.1 s0Inorder envTimeout s1Inorder true 0 rfl rfl

end RouteManagerPy
